import Mathlib

/-!
Verification development for the G2Crowd scraper (`src/main.py`).

The program is embedded shallowly:

* `GProduct` / `GProductList` (the record model, `main.py` lines 14-32) become a
  Lean structure and a `List GProduct`.
* The pandas export pipeline (`dataframe` / `save_to_csv` / `save_to_json`,
  lines 34-74) is modelled by pure functions: `pd.json_normalize` derives the
  column set from the records (empty input gives a frame with no columns),
  `to_csv(index=False)` writes one newline-terminated line per frame row plus a
  newline-terminated header line, and `to_json(orient="records")` writes a JSON
  array of objects keyed by the frame columns.
* The per-URL scraping loop (`scrape_g2crowd_urls`, lines 77-165) becomes a
  step function over an explicit state.  Python exception behaviour is made
  explicit: the `except Error` clause catches only Playwright errors, so
  `ValueError` (from `int()` / `float()`), `IndexError` (from `[1]` on a short
  list) and `UnboundLocalError` (reading `product` before its first
  assignment) propagate and abort the run; these are the `PyFatal` outcomes.
* Python number printing and `str()` of a list of strings are modelled by
  `intRepr`, `ratToDecimal` and `pyStrList` below; Python `int(s)` / `float(s)`
  on the plain decimal literals the scraper meets are `pyInt` / `pyFloat`,
  with scores carried as `Rat`.
-/

/-- The apostrophe character (Python `"'"`). -/
def apos : Char := Char.ofNat 39

/-- The double-quote character (Python `'"'`). -/
def dq : Char := Char.ofNat 34

/-- Apostrophe as a one-character string; the separator of `.split("'")`. -/
def aposS : String := String.singleton apos

/-- True when the string contains no newline character. -/
def nlFree (s : String) : Bool := s.data.all (fun c => c ≠ '\n')

/-- Join a list of strings with a separator (the behaviour of Python
`sep.join`, used to model comma-joining of CSV cells and JSON items). -/
def joinSep (sep : String) : List String → String
  | [] => ""
  | [s] => s
  | s :: ss => s ++ sep ++ joinSep sep ss

/-- Digit characters of a natural number, accumulator style (fuel-based,
mirroring decimal printing). -/
def natDigitsCore : Nat → Nat → List Char → List Char
  | 0, _, acc => acc
  | fuel + 1, n, acc =>
    let d := Char.ofNat (48 + n % 10)
    if n < 10 then d :: acc else natDigitsCore fuel (n / 10) (d :: acc)

/-- Decimal rendering of a natural number. -/
def natRepr (n : Nat) : String := ⟨natDigitsCore (n + 1) n []⟩

/-- Decimal rendering of an integer (Python `repr` of an `int`). -/
def intRepr : Int → String
  | Int.ofNat m => natRepr m
  | Int.negSucc m => "-" ++ natRepr (m + 1)

/-- Strip leading and trailing whitespace (Python `str.strip`, as `int` and
`float` apply it before parsing). -/
def pyStrip (s : String) : String :=
  ⟨((s.data.dropWhile Char.isWhitespace).reverse.dropWhile
      Char.isWhitespace).reverse⟩

/-- Split a character list at every occurrence of the separator character,
keeping empty groups (the behaviour of Python `str.split` with an explicit
separator). -/
def splitChar (sep : Char) : List Char → List (List Char)
  | [] => [[]]
  | c :: rest =>
    match splitChar sep rest with
    | [] => [[c]]
    | g :: gs => if c = sep then [] :: g :: gs else (c :: g) :: gs

/-- Python `s.split(sep)` for a one-character separator (the only shape the
program uses: `" "` and `"'"`). -/
def pySplit (sep : Char) (s : String) : List String :=
  (splitChar sep s.data).map (fun g => ⟨g⟩)

/-- Value of a list of decimal digit characters. -/
def digitsToNat (cs : List Char) : Nat :=
  cs.foldl (fun a c => a * 10 + (c.toNat - 48)) 0

/-- Model of Python `int(s)`: strip whitespace, optional sign, then a nonempty
run of decimal digits; anything else raises `ValueError` (here: `none`). -/
def pyInt (s : String) : Option Int :=
  let t := pyStrip s
  let cs := t.data
  let signDigits : Int × List Char :=
    match cs with
    | c :: rest =>
      if c = '-' then (-1, rest) else if c = '+' then (1, rest) else (1, cs)
    | [] => (1, [])
  let ds := signDigits.2
  if !ds.isEmpty && ds.all Char.isDigit then
    some (signDigits.1 * (digitsToNat ds : Nat))
  else none

/-- Model of Python `float(s)` on plain decimal literals (the only shape the
scraped score texts take): strip whitespace, optional sign, digits with at
most one decimal point and at least one digit; result as an exact `Rat`.
Anything else raises `ValueError` (here: `none`). -/
def pyFloat (s : String) : Option Rat :=
  let t := pyStrip s
  let cs := t.data
  let signDigits : Rat × List Char :=
    match cs with
    | c :: rest =>
      if c = '-' then (-1, rest) else if c = '+' then (1, rest) else (1, cs)
    | [] => (1, [])
  let body : String := ⟨signDigits.2⟩
  match pySplit '.' body with
  | [a] =>
    if !a.isEmpty && a.data.all Char.isDigit then
      some (signDigits.1 * (digitsToNat a.data : Nat))
    else none
  | [a, b] =>
    if (!a.isEmpty || !b.isEmpty) && a.data.all Char.isDigit
        && b.data.all Char.isDigit then
      some (signDigits.1 *
        ((digitsToNat a.data : Rat) +
          (digitsToNat b.data : Rat) / (10 : Rat) ^ b.data.length))
    else none
  | _ => none

/-- Left-pad a digit string with zeros to width `k`. -/
def padLeftZeros (k : Nat) (s : String) : String :=
  String.mk (List.replicate (k - s.length) '0') ++ s

/-- Drop trailing zero characters. -/
def stripTrailingZeros (s : String) : String :=
  ⟨(s.data.reverse.dropWhile (fun c => c = '0')).reverse⟩

/-- The digits printed after the decimal point for a fractional part `fr`
out of `10 ^ k`: zero-padded to width `k`, trailing zeros dropped, and at
least one digit kept. -/
def fracDigits (k fr : Nat) : String :=
  let kept := stripTrailingZeros (padLeftZeros k (natRepr fr))
  if kept.isEmpty then "0" else kept

/-- Decimal rendering of a `Rat` whose denominator divides a power of ten, in
the style Python/pandas print floats (`8.5`, `0.0`); other denominators
(never produced by `pyFloat`) fall back to a fraction rendering. -/
def ratToDecimal (q : Rat) : String :=
  let sgn := if q.num < 0 then "-" else ""
  match (List.range 31).find? (fun k => 10 ^ k % q.den = 0) with
  | some k =>
    let scaled := q.num.natAbs * (10 ^ k / q.den)
    sgn ++ natRepr (scaled / 10 ^ k) ++ "." ++ fracDigits k (scaled % 10 ^ k)
  | none => sgn ++ natRepr q.num.natAbs ++ "/" ++ natRepr q.den

/-- Escaping of one character inside a Python string `repr` with quote
character `q`. -/
def pyEscapeChar (q c : Char) : List Char :=
  if c = '\\' then ['\\', '\\']
  else if c = q then ['\\', q]
  else if c = '\n' then ['\\', 'n']
  else if c = '\t' then ['\\', 't']
  else if c = '\r' then ['\\', 'r']
  else [c]

/-- Model of Python `repr` of a string (as used by `str` on a list of
strings): single-quoted, except double-quoted when the string contains an
apostrophe and no double quote. -/
def pyRepr (s : String) : String :=
  let q := if s.data.contains apos && !(s.data.contains dq) then dq else apos
  String.singleton q ++ String.mk (s.data.flatMap (pyEscapeChar q)) ++
    String.singleton q

/-- Model of Python `str` applied to a list of strings, as in
`str(await page.locator(reviews_xpath).all_inner_texts())` (`main.py` line
124): bracketed, comma-space separated `repr`s of the elements. -/
def pyStrList (ts : List String) : String :=
  "[" ++ joinSep ", " (ts.map pyRepr) ++ "]"

/-- The scraped record (`GProduct`, `main.py` lines 14-20): `title` and
`reviews` default to `None`, the three scores default to `0.0`. -/
structure GProduct where
  title : Option String := none
  reviews : Option Int := none
  seo_ease_use_average : Rat := 0
  seo_quality_support_average : Rat := 0
  seo_ease_setup_average : Rat := 0
deriving DecidableEq, Repr

/-- The five field names of `GProduct`, in declaration order. -/
def gproductFields : List String :=
  ["title", "reviews", "seo_ease_use_average", "seo_quality_support_average",
    "seo_ease_setup_average"]

/-- A JSON-level cell value appearing in the tabular view: pandas keeps
`None` (`null`), Python ints, and floats apart. -/
inductive JVal where
  | null
  | str (s : String)
  | int (n : Int)
  | num (q : Rat)
deriving DecidableEq, Repr

/-- Flat field-name/value pairs of one record, the result of `asdict` on a
`GProduct` (already flat, so `json_normalize`'s `sep="_"` has nothing to
join). -/
def recordPairs (p : GProduct) : List (String × JVal) :=
  [("title", match p.title with | none => JVal.null | some s => JVal.str s),
   ("reviews", match p.reviews with | none => JVal.null | some n => JVal.int n),
   ("seo_ease_use_average", JVal.num p.seo_ease_use_average),
   ("seo_quality_support_average", JVal.num p.seo_quality_support_average),
   ("seo_ease_setup_average", JVal.num p.seo_ease_setup_average)]

/-- The tabular view produced by `GProductList.dataframe` (`main.py` lines
34-49): column labels and one row of cells per record. -/
structure Frame where
  columns : List String
  rows : List (List JVal)
deriving DecidableEq, Repr

/-- Columns of the normalized frame: `pd.json_normalize` infers them from the
records, so an empty collection yields a frame with no columns at all. -/
def dataframeColumns (l : List GProduct) : List String :=
  if l.isEmpty then [] else gproductFields

/-- Model of `GProductList.dataframe` (`main.py` lines 34-49):
`pd.json_normalize(asdict(p) for p in product_list, sep="_")`. -/
def dataframe (l : List GProduct) : Frame :=
  ⟨dataframeColumns l, l.map (fun p => (recordPairs p).map Prod.snd)⟩

/-- CSV quoting of one character: double quotes are doubled. -/
def csvEscChar (c : Char) : List Char :=
  if c = dq then [dq, dq] else [c]

/-- Wrap a CSV field in double quotes, doubling embedded quotes. -/
def csvQuote (s : String) : String :=
  ⟨dq :: s.data.flatMap csvEscChar ++ [dq]⟩

/-- Minimal CSV quoting as the csv module does it: quote a field only when it
contains a comma, a quote, or a line break. -/
def csvCell (s : String) : String :=
  if s.data.contains ',' || s.data.contains dq || s.data.contains '\n'
      || s.data.contains '\r' then
    csvQuote s
  else s

/-- CSV rendering of one cell value: `None` becomes the empty field, numbers
print as Python prints them. -/
def jvalCsvCell : JVal → String
  | JVal.null => ""
  | JVal.str s => csvCell s
  | JVal.int n => intRepr n
  | JVal.num q => ratToDecimal q

/-- The lines `to_csv(index=False)` writes for a frame: a header line of
comma-joined column labels (no index column), then one line of comma-joined
cells per row. -/
def csvLinesOfFrame (f : Frame) : List String :=
  joinSep "," f.columns ::
    f.rows.map (fun r => joinSep "," (r.map jvalCsvCell))

/-- Serialize frame lines to the file contents: every line, the header
included, is terminated by a newline. -/
def csvRender (f : Frame) : String :=
  String.join ((csvLinesOfFrame f).map (fun s => s ++ "\n"))

/-- Model of `GProductList.save_to_csv` (`main.py` lines 51-61): the contents
written to `<filename>.csv`, re-deriving the frame on every call. -/
def save_to_csv (l : List GProduct) : String := csvRender (dataframe l)

/-- JSON string escaping for serialized cell values. -/
def jsonEscChar (c : Char) : List Char :=
  if c = dq then ['\\', dq]
  else if c = '\\' then ['\\', '\\']
  else if c = '\n' then ['\\', 'n']
  else if c = '\t' then ['\\', 't']
  else if c = '\r' then ['\\', 'r']
  else [c]

/-- Serialize one JSON value. -/
def jsonOfVal : JVal → String
  | JVal.null => "null"
  | JVal.str s =>
    String.singleton dq ++ String.mk (s.data.flatMap jsonEscChar) ++
      String.singleton dq
  | JVal.int n => intRepr n
  | JVal.num q => ratToDecimal q

/-- Serialize one key/value pair of a JSON object. -/
def jsonOfPair (kv : String × JVal) : String :=
  String.singleton dq ++ kv.1 ++ String.singleton dq ++ ":" ++ jsonOfVal kv.2

/-- Serialize one JSON object. -/
def jsonOfObj (o : List (String × JVal)) : String :=
  "\x7b" ++ joinSep "," (o.map jsonOfPair) ++ "\x7d"

/-- Model of `to_json(orient="records")` on a frame: a JSON array with one
object per row, keyed by the frame columns. -/
def jsonOfFrame (f : Frame) : String :=
  "[" ++ joinSep "," (f.rows.map (fun r => jsonOfObj (f.columns.zip r))) ++ "]"

/-- Model of `GProductList.save_to_json` (`main.py` lines 64-74): the
contents written to `<filename>.json`, re-deriving the frame on every call. -/
def save_to_json (l : List GProduct) : String := jsonOfFrame (dataframe l)

/-- The decoded form of the JSON export: one object (key/value list) per
record, in collection order. -/
def jsonDecoded (l : List GProduct) : List (List (String × JVal)) :=
  l.map recordPairs

/-- Two successive CSV exports of the same, unmutated collection. -/
def exportTwiceCsv (l : List GProduct) : String × String :=
  (save_to_csv l, save_to_csv l)

/-- XPath for the product title (`main.py` line 111). -/
def title_xpath : String := "//a[@class=\"c-midnight-100\"]"

/-- XPath for the reviews link (`main.py` lines 112-113; the Python literal
continues over a backslash-newline splice, so the indentation of the second
line is part of the string). -/
def reviews_xpath : String :=
  "//a[@class=\"link js-log-click\" and @href=\"https://www.g2.com/products/conductor/reviews#reviews\" and                 @href=\"https://www.g2.com/products/conductor/reviews#reviews\"]"

/-- XPath for the ease-of-use score (`main.py` line 114). -/
def seo_ease_use_average_xpath : String :=
  "//div[@class=\"center-center fw-semibold text-medium\" and @style=\"color: #ff492c\"]"

/-- XPath for the quality-of-support score (`main.py` line 115). -/
def seo_quality_support_average_xpath : String :=
  "//div[@class=\"center-center fw-semibold text-medium\" and @style=\"color: #5a39a2\"]"

/-- XPath for the ease-of-setup score (`main.py` line 116) - the same string
as `seo_quality_support_average_xpath`. -/
def seo_ease_setup_average_xpath : String :=
  "//div[@class=\"center-center fw-semibold text-medium\" and @style=\"color: #5a39a2\"]"

/-- Behaviour of the browser page for one URL: each Playwright call either
returns a value or raises a Playwright `Error` (carried as the message
string).  `innerText` is `page.locator(sel).inner_text()`, `allInnerTexts`
is `page.locator(sel).all_inner_texts()` (which never fails on an empty
match, but may time out or fail like any page interaction). -/
structure PageRun where
  goto : Except String Unit
  waitForLoadState : Except String Unit
  innerText : String → Except String String
  allInnerTexts : String → Except String (List String)

/-- Errors the `except Error` clause does not catch, which therefore abort
the whole run: `IndexError` from `[1]` on a too-short list, `ValueError`
from `int()` / `float()`, and `UnboundLocalError` from appending `product`
when it was never assigned. -/
inductive PyFatal where
  | indexError
  | valueError (s : String)
  | unboundLocal
deriving DecidableEq, Repr

/-- Result of the `try` block body for one URL (`main.py` lines 101-148):
success with the finished record, a caught Playwright error together with
the binding of the local `product` at that point (`none` when the failure
happened before `product = GProduct()`), or an uncaught fatal error. -/
inductive TryOutcome where
  | ok (p : GProduct)
  | caught (msg : String) (bound : Option GProduct)
  | fatal (e : PyFatal)
deriving DecidableEq, Repr

/-- The review-count computation (`main.py` lines 123-127):
`int(str(texts).split(" ")[1].split("'")[1])`, with `IndexError` when an
index-1 element is missing and `ValueError` when the final segment is not an
integer literal. -/
def reviewsValue (ts : List String) : Except PyFatal Int :=
  match (pySplit ' ' (pyStrList ts)).get? 1 with
  | none => Except.error PyFatal.indexError
  | some tok =>
    match (pySplit apos tok).get? 1 with
    | none => Except.error PyFatal.indexError
    | some seg =>
      match pyInt seg with
      | none => Except.error (PyFatal.valueError seg)
      | some n => Except.ok n

/-- `float(text)` as used for the three scores, with its `ValueError`. -/
def floatValue (s : String) : Except PyFatal Rat :=
  match pyFloat s with
  | none => Except.error (PyFatal.valueError s)
  | some q => Except.ok q

/-- The `try` block body for one URL (`main.py` lines 102-148): navigate,
wait, construct `GProduct()`, then assign the five fields in order; a
Playwright error at any step is `caught` with the record as assigned so far,
a parse error is `fatal`. -/
def tryBody (pr : PageRun) : TryOutcome :=
  match pr.goto with
  | Except.error m => TryOutcome.caught m none
  | Except.ok _ =>
    match pr.waitForLoadState with
    | Except.error m => TryOutcome.caught m none
    | Except.ok _ =>
      match pr.innerText title_xpath with
      | Except.error m => TryOutcome.caught m (some {})
      | Except.ok t =>
        match pr.allInnerTexts reviews_xpath with
        | Except.error m => TryOutcome.caught m (some { title := some t })
        | Except.ok ts =>
          match reviewsValue ts with
          | Except.error e => TryOutcome.fatal e
          | Except.ok n =>
            match pr.innerText seo_ease_use_average_xpath with
            | Except.error m =>
              TryOutcome.caught m (some { title := some t, reviews := some n })
            | Except.ok s1 =>
              match floatValue s1 with
              | Except.error e => TryOutcome.fatal e
              | Except.ok q1 =>
                match pr.innerText seo_quality_support_average_xpath with
                | Except.error m =>
                  TryOutcome.caught m
                    (some { title := some t, reviews := some n,
                            seo_ease_use_average := q1 })
                | Except.ok s2 =>
                  match floatValue s2 with
                  | Except.error e => TryOutcome.fatal e
                  | Except.ok q2 =>
                    match pr.innerText seo_ease_setup_average_xpath with
                    | Except.error m =>
                      TryOutcome.caught m
                        (some { title := some t, reviews := some n,
                                seo_ease_use_average := q1,
                                seo_quality_support_average := q2 })
                    | Except.ok s3 =>
                      match floatValue s3 with
                      | Except.error e => TryOutcome.fatal e
                      | Except.ok q3 =>
                        TryOutcome.ok
                          { title := some t, reviews := some n,
                            seo_ease_use_average := q1,
                            seo_quality_support_average := q2,
                            seo_ease_setup_average := q3 }

/-- State of the scraping loop: the binding of the Python local `product`
(which survives from one loop iteration to the next), the accumulated
`products_list.product_list`, and the lines printed to standard output. -/
structure RunState where
  productVar : Option GProduct := none
  products : List GProduct := []
  log : List String := []
deriving DecidableEq, Repr

/-- The line `print(f"Error scraping {url}: {str(e)}")` writes
(`main.py` line 151). -/
def errLine (url msg : String) : String :=
  "Error scraping " ++ url ++ ": " ++ msg

/-- One iteration of the URL loop (`main.py` lines 100-153): run the `try`
body; on a caught Playwright error print the log line; then unconditionally
execute `products_list.product_list.append(product)`, which appends the
current binding of `product` - or raises `UnboundLocalError` when `product`
was never bound. -/
def scrapeStep (url : String) (pr : PageRun) (st : RunState) :
    Except PyFatal RunState :=
  match tryBody pr with
  | TryOutcome.ok p =>
    Except.ok { st with productVar := some p, products := st.products ++ [p] }
  | TryOutcome.caught m bound =>
    let logged := st.log ++ [errLine url m]
    match bound with
    | some p =>
      Except.ok
        { productVar := some p, products := st.products ++ [p],
          log := logged }
    | none =>
      match st.productVar with
      | some p =>
        Except.ok
          { productVar := some p, products := st.products ++ [p],
            log := logged }
      | none => Except.error PyFatal.unboundLocal
  | TryOutcome.fatal e => Except.error e

/-- The whole URL loop: visit the URLs in order, stopping only when an
uncaught Python exception aborts the run. -/
def scrapeLoop (pages : String → PageRun) : List String → RunState →
    Except PyFatal RunState
  | [], st => Except.ok st
  | u :: rest, st =>
    match scrapeStep u (pages u) st with
    | Except.error e => Except.error e
    | Except.ok st2 => scrapeLoop pages rest st2

/-- The two files the run writes at the end (`main.py` lines 162-163). -/
structure RunOutput where
  csv : String
  json : String
deriving DecidableEq, Repr

/-- The full run of `scrape_g2crowd_urls`: loop over the URLs starting from
the empty state, then export the collection to CSV and JSON. -/
def scrapeRun (pages : String → PageRun) (urls : List String) :
    Except PyFatal (RunState × RunOutput) :=
  match scrapeLoop pages urls {} with
  | Except.error e => Except.error e
  | Except.ok st =>
    Except.ok (st, ⟨save_to_csv st.products, save_to_json st.products⟩)

/-- Options of the `playwright.chromium.launch(headless=False)` call
(`main.py` line 89). -/
structure LaunchOptions where
  headless : Bool
deriving DecidableEq, Repr

/-- The launch configuration the program actually uses: `headless=False`. -/
def chromiumLaunch : LaunchOptions := ⟨false⟩

/-- A well-formed record: all five fields populated, the title free of line
breaks (so its CSV cell stays on one line). -/
def wellFormed (p : GProduct) : Bool :=
  (match p.title with
   | some t => nlFree t && t.data.all (fun c => c ≠ '\r')
   | none => false) && p.reviews.isSome

/-- A page whose navigation itself fails with a (caught) Playwright error;
every later operation would succeed but is never reached. -/
def gotoFailPage : PageRun where
  goto := Except.error "net::ERR_CONNECTION_REFUSED"
  waitForLoadState := Except.ok ()
  innerText := fun _ => Except.ok "8.5"
  allInnerTexts := fun _ => Except.ok []

/-- A page where navigation and the title lookup succeed but the reviews
locator times out with a (caught) Playwright error. -/
def reviewsFailPage : PageRun where
  goto := Except.ok ()
  waitForLoadState := Except.ok ()
  innerText := fun s =>
    if s = title_xpath then Except.ok "Conductor" else Except.ok "8.5"
  allInnerTexts := fun _ => Except.error "Timeout 30000ms exceeded"

/-- A page where every locator succeeds but the reviews text does not survive
the split/parse chain with an integer: `str(["10 reviews"])` space-splits to
a token whose apostrophe-split index 1 is `]`, and `int("]")` raises
`ValueError`. -/
def parseFailPage : PageRun where
  goto := Except.ok ()
  waitForLoadState := Except.ok ()
  innerText := fun s =>
    if s = title_xpath then Except.ok "Conductor" else Except.ok "8.5"
  allInnerTexts := fun _ => Except.ok ["10 reviews"]

/-- The literal text of the spec's worked example:
`1,234 reviews of 'Conductor'`. -/
def literalReviewText : String :=
  "1,234 reviews of " ++ aposS ++ "Conductor" ++ aposS

/-- The page of the spec's literal example: title `Conductor`, review text
list `["1,234 reviews of 'Conductor'"]`, and score texts `8.5`, `9.1`,
`8.7`. -/
def literalPage : PageRun where
  goto := Except.ok ()
  waitForLoadState := Except.ok ()
  innerText := fun s =>
    if s = title_xpath then Except.ok "Conductor"
    else if s = seo_ease_use_average_xpath then Except.ok "8.5"
    else if s = seo_quality_support_average_xpath then Except.ok "9.1"
    else Except.ok "8.7"
  allInnerTexts := fun _ => Except.ok [literalReviewText]

/-- A page on which every step succeeds: the review text `a b'7'` survives
the split/parse chain (after `str`, the space token at index 1 is `b'7'"]`,
whose apostrophe segment at index 1 is `7`). -/
def okPage : PageRun where
  goto := Except.ok ()
  waitForLoadState := Except.ok ()
  innerText := fun s =>
    if s = title_xpath then Except.ok "Conductor" else Except.ok "8.5"
  allInnerTexts := fun _ => Except.ok ["a b" ++ aposS ++ "7" ++ aposS]

/-- The value `float("8.5")` parses to (numerically `17/2`). -/
def okScore : Rat := (pyFloat "8.5").getD 0

/-- The record `okPage` produces. -/
def okRecord : GProduct :=
  { title := some "Conductor", reviews := some 7,
    seo_ease_use_average := okScore,
    seo_quality_support_average := okScore,
    seo_ease_setup_average := okScore }

/-- A URL-to-page assignment where the first URL succeeds and the second
fails during navigation. -/
def okThenGotoFail : String → PageRun :=
  fun u => if u = "https://ok.example" then okPage else gotoFailPage

theorem digit_char_ne_nl (n : Nat) : Char.ofNat (48 + n % 10) ≠ '\n' := by
  have h : n % 10 < 10 := Nat.mod_lt _ (by norm_num)
  interval_cases h : n % 10 <;> decide

theorem natDigitsCore_no_nl :
    ∀ fuel n acc, (∀ c ∈ acc, c ≠ '\n') →
      ∀ c ∈ natDigitsCore fuel n acc, c ≠ '\n' := by
  intro fuel
  induction fuel with
  | zero => intro n acc h c hc; exact h c hc
  | succ f ih =>
    intro n acc h c hc
    simp only [natDigitsCore] at hc
    split at hc
    · rcases List.mem_cons.mp hc with hd | ha
      · exact hd ▸ digit_char_ne_nl n
      · exact h c ha
    · refine ih (n / 10) _ ?_ c hc
      intro d hd
      rcases List.mem_cons.mp hd with hd | ha
      · exact hd ▸ digit_char_ne_nl n
      · exact h d ha

theorem natRepr_no_nl (n : Nat) : ∀ c ∈ (natRepr n).data, c ≠ '\n' := by
  intro c hc
  exact natDigitsCore_no_nl (n + 1) n [] (by simp) c hc

theorem intRepr_no_nl (n : Int) : ∀ c ∈ (intRepr n).data, c ≠ '\n' := by
  intro c hc
  cases n with
  | ofNat m => exact natRepr_no_nl m c hc
  | negSucc m =>
    simp only [intRepr, String.data_append] at hc
    rcases List.mem_append.mp hc with hm | hm
    · simp only [show ("-" : String).data = ['-'] from rfl,
        List.mem_singleton] at hm
      simp [hm]
    · exact natRepr_no_nl (m + 1) c hm

theorem append_no_nl {s t : String} (hs : ∀ c ∈ s.data, c ≠ '\n')
    (ht : ∀ c ∈ t.data, c ≠ '\n') : ∀ c ∈ (s ++ t).data, c ≠ '\n' := by
  intro c hc
  rw [String.data_append] at hc
  rcases List.mem_append.mp hc with h | h
  · exact hs c h
  · exact ht c h

theorem dot_no_nl : ∀ c ∈ ("." : String).data, c ≠ '\n' := by decide

theorem slash_no_nl : ∀ c ∈ ("/" : String).data, c ≠ '\n' := by decide

theorem dash_no_nl : ∀ c ∈ ("-" : String).data, c ≠ '\n' := by decide

theorem blank_no_nl : ∀ c ∈ ("" : String).data, c ≠ '\n' := by decide

theorem fracDigits_no_nl (k fr : Nat) : ∀ c ∈ (fracDigits k fr).data, c ≠ '\n' := by
  intro c hc
  simp only [fracDigits] at hc
  split at hc
  · have h0 : c = '0' := by simpa using hc
    simp [h0]
  · simp only [stripTrailingZeros, padLeftZeros] at hc
    have h1 := (List.dropWhile_sublist _).mem (List.mem_reverse.mp hc)
    have h2 := List.mem_reverse.mp h1
    rw [String.data_append] at h2
    rcases List.mem_append.mp h2 with hm | hm
    · have := List.eq_of_mem_replicate hm
      simp [this]
    · exact natRepr_no_nl fr c hm

theorem ratToDecimal_no_nl (q : Rat) : ∀ c ∈ (ratToDecimal q).data, c ≠ '\n' := by
  intro c hc
  unfold ratToDecimal at hc
  split at hc <;> split at hc <;>
    simp only [String.data_append, List.mem_append, List.mem_singleton,
      List.not_mem_nil, false_or] at hc
  · rcases hc with ((rfl | h) | rfl) | h
    · decide
    · exact natRepr_no_nl _ c h
    · decide
    · exact fracDigits_no_nl _ _ c h
  · rcases hc with ((rfl | h) | rfl) | h
    · decide
    · exact natRepr_no_nl _ c h
    · decide
    · exact natRepr_no_nl _ c h
  · rcases hc with (h | rfl) | h
    · exact natRepr_no_nl _ c h
    · decide
    · exact fracDigits_no_nl _ _ c h
  · rcases hc with (h | rfl) | h
    · exact natRepr_no_nl _ c h
    · decide
    · exact natRepr_no_nl _ c h

theorem csvQuote_no_nl (t : String) (h : ∀ c ∈ t.data, c ≠ '\n') :
    ∀ c ∈ (csvQuote t).data, c ≠ '\n' := by
  intro c hc
  simp only [csvQuote] at hc
  rcases List.mem_cons.mp hc with rfl | hm
  · decide
  · rcases List.mem_append.mp hm with hm2 | hm2
    · obtain ⟨a, ha, hca⟩ := List.mem_flatMap.mp hm2
      simp only [csvEscChar] at hca
      split at hca
      · rcases List.mem_cons.mp hca with rfl | h2
        · decide
        · rcases List.mem_singleton.mp h2 with rfl
          decide
      · have hceq : c = a := List.mem_singleton.mp hca
        rw [hceq]
        exact h a ha
    · rcases List.mem_singleton.mp hm2 with rfl
      decide

theorem csvCell_no_nl (t : String) (h : ∀ c ∈ t.data, c ≠ '\n') :
    ∀ c ∈ (csvCell t).data, c ≠ '\n' := by
  intro c hc
  unfold csvCell at hc
  split at hc
  · exact csvQuote_no_nl t h c hc
  · exact h c hc

theorem jvalCsvCell_no_nl (v : JVal)
    (h : ∀ t, v = JVal.str t → ∀ c ∈ t.data, c ≠ '\n') :
    ∀ c ∈ (jvalCsvCell v).data, c ≠ '\n' := by
  intro c hc
  cases v with
  | null => cases hc
  | str s => exact csvCell_no_nl s (h s rfl) c hc
  | int n => exact intRepr_no_nl n c hc
  | num q => exact ratToDecimal_no_nl q c hc

theorem joinSep_no_nl (sep : String) (hsep : ∀ c ∈ sep.data, c ≠ '\n') :
    ∀ xs, (∀ s ∈ xs, ∀ c ∈ s.data, c ≠ '\n') →
      ∀ c ∈ (joinSep sep xs).data, c ≠ '\n' := by
  intro xs
  induction xs with
  | nil =>
    intro _ c hc
    simp only [joinSep] at hc
    cases hc
  | cons x ys ih =>
    intro h c hc
    cases ys with
    | nil =>
      simp only [joinSep] at hc
      exact h x (by simp) c hc
    | cons y zs =>
      simp only [joinSep] at hc
      exact append_no_nl (append_no_nl (h x (by simp)) hsep)
        (ih (fun s hs => h s (by simp [hs]))) c hc

theorem comma_no_nl : ∀ c ∈ ("," : String).data, c ≠ '\n' := by decide

theorem header_no_nl : ∀ c ∈ (joinSep "," gproductFields).data, c ≠ '\n' := by
  decide

theorem row_no_nl (p : GProduct) (hp : wellFormed p = true) :
    ∀ c ∈ (joinSep ","
      (((recordPairs p).map Prod.snd).map jvalCsvCell)).data, c ≠ '\n' := by
  obtain ⟨ot, orv, q1, q2, q3⟩ := p
  cases ot with
  | none => simp [wellFormed] at hp
  | some t =>
    cases orv with
    | none => simp [wellFormed] at hp
    | some n =>
      simp only [wellFormed, nlFree, Bool.and_eq_true, List.all_eq_true,
        decide_eq_true_eq, Option.isSome_some] at hp
      apply joinSep_no_nl _ comma_no_nl
      intro s hs
      simp only [recordPairs, List.map_cons, List.map_nil, List.mem_cons,
        List.not_mem_nil, or_false, jvalCsvCell] at hs
      rcases hs with rfl | rfl | rfl | rfl | rfl
      · exact csvCell_no_nl t hp.1.1
      · exact intRepr_no_nl n
      · exact ratToDecimal_no_nl q1
      · exact ratToDecimal_no_nl q2
      · exact ratToDecimal_no_nl q3

theorem zip_recordPairs (p : GProduct) :
    gproductFields.zip ((recordPairs p).map Prod.snd) = recordPairs p := rfl

theorem save_to_json_decoded (l : List GProduct) :
    save_to_json l = "[" ++ joinSep "," ((jsonDecoded l).map jsonOfObj) ++ "]" := by
  cases l with
  | nil => rfl
  | cons a l' =>
    simp only [save_to_json, jsonOfFrame, dataframe, jsonDecoded]
    have hcols : dataframeColumns (a :: l') = gproductFields := rfl
    rw [hcols]
    have hmap :
        ((a :: l').map (fun p => (recordPairs p).map Prod.snd)).map
            (fun r => jsonOfObj (gproductFields.zip r)) =
          ((a :: l').map recordPairs).map jsonOfObj := by
      rw [List.map_map, List.map_map]
      exact List.map_congr_left (fun p _ => by
        simp only [Function.comp_apply, zip_recordPairs])
    rw [hmap]

/-- C4 counterexample: exporting the empty collection to CSV does not
produce a header line carrying the five field names - `json_normalize` finds
no columns in an empty record list, so the written header is empty. -/
theorem c4_counterexample :
    ¬ (save_to_csv ([] : List GProduct) =
        joinSep "," gproductFields ++ "\n") := by decide

/-- C4 (amended): both exports are total on the empty collection, but the
CSV output is a single empty line (no field names), while the JSON output is
the empty array `[]`. -/
theorem c4_empty_exports :
    save_to_csv ([] : List GProduct) = "\n" ∧
    save_to_json ([] : List GProduct) = "[]" := ⟨rfl, rfl⟩

/-- C5 counterexample: on the empty (hence trivially all-well-formed)
collection the single CSV line is not the five-field header, so the claim's
"columns in declaration order: title, reviews, ..." part fails at N = 0. -/
theorem c5_counterexample :
    ¬ ((csvLinesOfFrame (dataframe ([] : List GProduct))).head? =
        some (joinSep "," gproductFields)) := by decide

/-- C5 (amended): for a nonempty collection of well-formed records, the CSV
export has exactly N+1 lines - a header of the five field names in
declaration order followed by one line per record in order, with no index
column (exactly five cells per row) - and no line contains an embedded
newline; the written file is exactly these lines, each newline-terminated.
For the empty collection the header carries no field names (see the
counterexample). -/
theorem c5_csv_shape (l : List GProduct) (hne : l ≠ [])
    (hwf : ∀ p ∈ l, wellFormed p = true) :
    (csvLinesOfFrame (dataframe l)).length = l.length + 1 ∧
    (csvLinesOfFrame (dataframe l)).head? = some (joinSep "," gproductFields) ∧
    (dataframe l).columns = gproductFields ∧
    (∀ r ∈ (dataframe l).rows, r.length = 5) ∧
    save_to_csv l =
      String.join ((csvLinesOfFrame (dataframe l)).map (fun s => s ++ "\n")) ∧
    (∀ s ∈ csvLinesOfFrame (dataframe l), ∀ c ∈ s.data, c ≠ '\n') := by
  obtain ⟨a, l', rfl⟩ : ∃ a l', l = a :: l' := by
    cases l with
    | nil => exact absurd rfl hne
    | cons a l' => exact ⟨a, l', rfl⟩
  refine ⟨?_, ?_, ?_, ?_, rfl, ?_⟩
  · simp [csvLinesOfFrame, dataframe]
  · rfl
  · rfl
  · intro r hr
    simp only [dataframe, List.mem_map] at hr
    obtain ⟨p, _, rfl⟩ := hr
    rfl
  · intro s hs
    simp only [csvLinesOfFrame] at hs
    rcases List.mem_cons.mp hs with rfl | hrow
    · exact header_no_nl
    · simp only [dataframe, List.map_map, List.mem_map] at hrow
      obtain ⟨p, hp, rfl⟩ := hrow
      exact row_no_nl p (hwf p hp)

/-- C5 witness: the amended theorem applied to the one-record collection
`[okRecord]`. -/
theorem c5_witness :
    (csvLinesOfFrame (dataframe [okRecord])).length = 2 ∧
    (csvLinesOfFrame (dataframe [okRecord])).head? =
      some (joinSep "," gproductFields) :=
  ⟨(c5_csv_shape [okRecord] (by decide) (by decide)).1,
   (c5_csv_shape [okRecord] (by decide) (by decide)).2.1⟩

/-- C6: the JSON export is the serialization of `jsonDecoded l`, which has
exactly one object per record, in collection order (the i-th object is
`recordPairs` of the i-th record), and every object carries exactly the five
field names as keys, in header order. -/
theorem c6_json_objects (l : List GProduct) :
    save_to_json l = "[" ++ joinSep "," ((jsonDecoded l).map jsonOfObj) ++ "]" ∧
    jsonDecoded l = l.map recordPairs ∧
    (jsonDecoded l).length = l.length ∧
    (∀ o ∈ jsonDecoded l, o.map Prod.fst = gproductFields) := by
  refine ⟨save_to_json_decoded l, rfl, by simp [jsonDecoded], ?_⟩
  intro o ho
  obtain ⟨p, _, rfl⟩ := List.mem_map.mp ho
  rfl

/-- C7: the exports are pure functions of the collection contents alone -
each export call re-derives the tabular view `dataframe l` rather than
reading a cache, so exporting the same unmutated collection twice yields
byte-identical output. -/
theorem c7_exports_pure (l : List GProduct) :
    (exportTwiceCsv l).1 = (exportTwiceCsv l).2 ∧
    save_to_csv l = csvRender (dataframe l) ∧
    save_to_json l = jsonOfFrame (dataframe l) := ⟨rfl, rfl, rfl⟩

/-- C8 counterexample: the browser is not launched in headless mode -
`main.py` line 89 passes `headless=False`. -/
theorem c8_counterexample : ¬ (chromiumLaunch.headless = true) := by decide

/-- C8 (amended): the browser context acquired at the start of a run is
launched with `headless=False`, i.e. a visible (headful) browser. -/
theorem c8_headful : chromiumLaunch.headless = false := rfl

/-- C1 counterexample: on a URL whose `page.goto` fails with a caught
Playwright error before `product = GProduct()` runs, no record for that URL
is appended - on the very first URL the unconditional
`products_list.product_list.append(product)` reads an unbound local and the
run aborts with `UnboundLocalError` instead of producing a row. -/
theorem c1_counterexample :
    scrapeLoop (fun _ => gotoFailPage)
      ["https://www.g2.com/products/conductor/features"] {} =
      Except.error PyFatal.unboundLocal := rfl

/-- C1 (amended): for every URL whose extraction suffers a caught
page-interaction failure after the record object has been constructed
(i.e. during one of the five field lookups), a record for that URL is still
appended, with every field assigned before the failure retained and every
remaining field left at its default sentinel (`none` for title and reviews,
`0.0` for the three scores); when the caught failure precedes construction
(navigation/load wait) no fresh record is appended (see the counterexample
and C10). -/
theorem c1_append_on_caught :
    (∀ u pr (st : RunState) m,
        pr.goto = Except.ok () → pr.waitForLoadState = Except.ok () →
        pr.innerText title_xpath = Except.error m →
        scrapeStep u pr st = Except.ok
          { productVar := some {}, products := st.products ++ [{}],
            log := st.log ++ [errLine u m] }) ∧
    (∀ u pr (st : RunState) t m,
        pr.goto = Except.ok () → pr.waitForLoadState = Except.ok () →
        pr.innerText title_xpath = Except.ok t →
        pr.allInnerTexts reviews_xpath = Except.error m →
        scrapeStep u pr st = Except.ok
          { productVar := some { title := some t },
            products := st.products ++ [{ title := some t }],
            log := st.log ++ [errLine u m] }) ∧
    (∀ u pr (st : RunState) t ts n m,
        pr.goto = Except.ok () → pr.waitForLoadState = Except.ok () →
        pr.innerText title_xpath = Except.ok t →
        pr.allInnerTexts reviews_xpath = Except.ok ts →
        reviewsValue ts = Except.ok n →
        pr.innerText seo_ease_use_average_xpath = Except.error m →
        scrapeStep u pr st = Except.ok
          { productVar := some { title := some t, reviews := some n },
            products := st.products ++ [{ title := some t, reviews := some n }],
            log := st.log ++ [errLine u m] }) ∧
    (∀ u pr (st : RunState) t ts n s1 q1 m,
        pr.goto = Except.ok () → pr.waitForLoadState = Except.ok () →
        pr.innerText title_xpath = Except.ok t →
        pr.allInnerTexts reviews_xpath = Except.ok ts →
        reviewsValue ts = Except.ok n →
        pr.innerText seo_ease_use_average_xpath = Except.ok s1 →
        floatValue s1 = Except.ok q1 →
        pr.innerText seo_quality_support_average_xpath = Except.error m →
        scrapeStep u pr st = Except.ok
          { productVar := some
              { title := some t, reviews := some n,
                seo_ease_use_average := q1 },
            products := st.products ++
              [{ title := some t, reviews := some n,
                 seo_ease_use_average := q1 }],
            log := st.log ++ [errLine u m] }) ∧
    (∀ u pr (st : RunState) t ts n s1 q1 s2 q2 m,
        pr.goto = Except.ok () → pr.waitForLoadState = Except.ok () →
        pr.innerText title_xpath = Except.ok t →
        pr.allInnerTexts reviews_xpath = Except.ok ts →
        reviewsValue ts = Except.ok n →
        pr.innerText seo_ease_use_average_xpath = Except.ok s1 →
        floatValue s1 = Except.ok q1 →
        pr.innerText seo_quality_support_average_xpath = Except.ok s2 →
        floatValue s2 = Except.ok q2 →
        pr.innerText seo_ease_setup_average_xpath = Except.error m →
        scrapeStep u pr st = Except.ok
          { productVar := some
              { title := some t, reviews := some n,
                seo_ease_use_average := q1,
                seo_quality_support_average := q2 },
            products := st.products ++
              [{ title := some t, reviews := some n,
                 seo_ease_use_average := q1,
                 seo_quality_support_average := q2 }],
            log := st.log ++ [errLine u m] }) := by
  refine ⟨?_, ?_, ?_, ?_, ?_⟩
  · intro u pr st m h1 h2 h3
    simp [scrapeStep, tryBody, h1, h2, h3]
  · intro u pr st t m h1 h2 h3 h4
    simp [scrapeStep, tryBody, h1, h2, h3, h4]
  · intro u pr st t ts n m h1 h2 h3 h4 h5 h6
    simp [scrapeStep, tryBody, h1, h2, h3, h4, h5, h6]
  · intro u pr st t ts n s1 q1 m h1 h2 h3 h4 h5 h6 h7 h8
    simp [scrapeStep, tryBody, h1, h2, h3, h4, h5, h6, h7, h8]
  · intro u pr st t ts n s1 q1 s2 q2 m h1 h2 h3 h4 h5 h6 h7 h8 h9 h10
    simp [scrapeStep, tryBody, h1, h2, h3, h4, h5, h6, h7, h8, h9, h10]

/-- C1 witness: the second conjunct applied to `reviewsFailPage`, where the
title was assigned before the reviews locator failed - the appended record
keeps the title and leaves every other field at its default. -/
theorem c1_witness :
    scrapeStep "https://a.example" reviewsFailPage {} = Except.ok
      { productVar := some { title := some "Conductor" },
        products := [{ title := some "Conductor" }],
        log := [errLine "https://a.example" "Timeout 30000ms exceeded"] } :=
  c1_append_on_caught.2.1 "https://a.example" reviewsFailPage {} "Conductor"
    "Timeout 30000ms exceeded" rfl rfl rfl rfl

/-- C2 counterexample: a text-to-number parse failure is not caught. With
every selector succeeding but the reviews text `"10 reviews"`, the chain
reaches `int("]")`, whose `ValueError` is not a Playwright `Error`: it
escapes the `except` clause and aborts the whole run instead of being
logged and skipped. -/
theorem c2_counterexample :
    scrapeLoop (fun _ => parseFailPage)
      ["https://www.g2.com/products/conductor/features"] {} =
      Except.error (PyFatal.valueError "]") := rfl

/-- C2 (amended): only Playwright errors (element not found, locator or
navigation timeout) are caught at the per-URL boundary; such an error is
logged to standard output as `Error scraping <url>: <message>` and the run
proceeds to the next URL. Text-to-number parse failures (`ValueError` from
`int()`/`float()`) and missing split tokens (`IndexError`) are not caught
and abort the whole run. -/
theorem c2_per_url_errors :
    (∀ (pages : String → PageRun) u rest (st : RunState) m p,
        tryBody (pages u) = TryOutcome.caught m (some p) →
        scrapeLoop pages (u :: rest) st =
          scrapeLoop pages rest
            { productVar := some p, products := st.products ++ [p],
              log := st.log ++ [errLine u m] }) ∧
    (∀ (pages : String → PageRun) u rest (st : RunState) e,
        tryBody (pages u) = TryOutcome.fatal e →
        scrapeLoop pages (u :: rest) st = Except.error e) := by
  constructor
  · intro pages u rest st m p h
    simp [scrapeLoop, scrapeStep, h]
  · intro pages u rest st e h
    simp [scrapeLoop, scrapeStep, h]

/-- C2 witness: both conjuncts at concrete pages - a caught locator timeout
is logged and the loop moves on; an uncaught parse `ValueError` aborts. -/
theorem c2_witness :
    scrapeLoop (fun _ => reviewsFailPage) ["https://a.example", "https://b.example"] {} =
      scrapeLoop (fun _ => reviewsFailPage) ["https://b.example"]
        { productVar := some { title := some "Conductor" },
          products := [{ title := some "Conductor" }],
          log := [errLine "https://a.example" "Timeout 30000ms exceeded"] } ∧
    scrapeLoop (fun _ => parseFailPage) ["https://c.example"] {} =
      Except.error (PyFatal.valueError "]") :=
  ⟨c2_per_url_errors.1 (fun _ => reviewsFailPage) "https://a.example"
      ["https://b.example"] {} "Timeout 30000ms exceeded"
      { title := some "Conductor" } rfl,
   c2_per_url_errors.2 (fun _ => parseFailPage) "https://c.example" [] {}
      (PyFatal.valueError "]") rfl⟩

/-- C3 counterexample: on the spec's literal page (title `Conductor`,
review text list `["1,234 reviews of 'Conductor'"]`, scores `8.5`, `9.1`,
`8.7`) the extraction does not yield a record at all: `str` of the list
space-splits to a token `reviews` at index 1 with no apostrophe, so the
apostrophe-split has no index 1 and the uncaught `IndexError` aborts the
run. -/
theorem c3_counterexample :
    scrapeLoop (fun _ => literalPage)
      ["https://www.g2.com/products/conductor/features"] {} =
      Except.error PyFatal.indexError := rfl

/-- C3 (amended): the review count is computed by the exact chain applied to
the Python string rendering of the multi-element text list - split on space,
token at index 1, split that token on an apostrophe, segment at index 1,
parse as integer. On the literal example input the space-token at index 1 is
`reviews`, which contains no apostrophe, so the chain raises an uncaught
`IndexError`; the claimed record is never produced and the run aborts. -/
theorem c3_literal_chain :
    (pySplit ' ' (pyStrList [literalReviewText])).get? 1 = some "reviews" ∧
    (pySplit apos "reviews").get? 1 = none ∧
    reviewsValue [literalReviewText] = Except.error PyFatal.indexError ∧
    tryBody literalPage = TryOutcome.fatal PyFatal.indexError := by
  refine ⟨rfl, rfl, rfl, rfl⟩

/-- C9: the XPath strings for the quality-of-support and ease-of-setup
scores are identical (`main.py` lines 115-116), so any extraction that
completes - the page capability being a function, equal selectors yield
equal text - produces a record whose two scores are equal. -/
theorem c9_equal_scores :
    seo_quality_support_average_xpath = seo_ease_setup_average_xpath ∧
    ∀ (pr : PageRun) (p : GProduct), tryBody pr = TryOutcome.ok p →
      p.seo_quality_support_average = p.seo_ease_setup_average := by
  refine ⟨rfl, ?_⟩
  intro pr p h
  simp only [tryBody] at h
  rw [show seo_ease_setup_average_xpath = seo_quality_support_average_xpath
    from rfl] at h
  cases hg : pr.goto with
  | error m => simp only [hg] at h; exact TryOutcome.noConfusion h
  | ok u =>
    simp only [hg] at h
    cases hw : pr.waitForLoadState with
    | error m => simp only [hw] at h; exact TryOutcome.noConfusion h
    | ok u2 =>
      simp only [hw] at h
      cases ht : pr.innerText title_xpath with
      | error m => simp only [ht] at h; exact TryOutcome.noConfusion h
      | ok t =>
        simp only [ht] at h
        cases hr : pr.allInnerTexts reviews_xpath with
        | error m => simp only [hr] at h; exact TryOutcome.noConfusion h
        | ok ts =>
          simp only [hr] at h
          cases hrv : reviewsValue ts with
          | error e => simp only [hrv] at h; exact TryOutcome.noConfusion h
          | ok n =>
            simp only [hrv] at h
            cases h1 : pr.innerText seo_ease_use_average_xpath with
            | error m => simp only [h1] at h; exact TryOutcome.noConfusion h
            | ok s1 =>
              simp only [h1] at h
              cases hf1 : floatValue s1 with
              | error e => simp only [hf1] at h; exact TryOutcome.noConfusion h
              | ok q1 =>
                simp only [hf1] at h
                cases h2 : pr.innerText seo_quality_support_average_xpath with
                | error m => simp only [h2] at h; exact TryOutcome.noConfusion h
                | ok s2 =>
                  simp only [h2] at h
                  cases hf2 : floatValue s2 with
                  | error e => simp only [hf2] at h; exact TryOutcome.noConfusion h
                  | ok q2 =>
                    simp only [hf2] at h
                    injection h with h5
                    subst h5
                    rfl

/-- C9 witness: a fully successful extraction on `okPage` yields equal
quality-of-support and ease-of-setup scores. -/
theorem c9_witness :
    okRecord.seo_quality_support_average = okRecord.seo_ease_setup_average :=
  c9_equal_scores.2 okPage okRecord rfl

/-- C10: when a caught failure precedes `product = GProduct()`, the
unconditional append does not add a fresh default record. On a first URL the
local `product` is still unbound and the append raises `UnboundLocalError`,
aborting the run; on a later URL the previous URL's record object is
appended a second time, duplicating its row. -/
theorem c10_stale_append :
    (∀ (pages : String → PageRun) u rest (st : RunState) m,
        tryBody (pages u) = TryOutcome.caught m none →
        st.productVar = none →
        scrapeLoop pages (u :: rest) st = Except.error PyFatal.unboundLocal) ∧
    (∀ (pages : String → PageRun) u1 u2 p m,
        tryBody (pages u1) = TryOutcome.ok p →
        tryBody (pages u2) = TryOutcome.caught m none →
        scrapeLoop pages [u1, u2] {} = Except.ok
          { productVar := some p, products := [p, p],
            log := [errLine u2 m] }) := by
  constructor
  · intro pages u rest st m h hvar
    simp [scrapeLoop, scrapeStep, h, hvar]
  · intro pages u1 u2 p m h1 h2
    simp [scrapeLoop, scrapeStep, h1, h2]

/-- C10 witness: the second conjunct at a concrete two-URL run - the first
URL succeeds, the second URL's navigation fails, and the first URL's record
appears twice in the collection. -/
theorem c10_witness :
    scrapeLoop okThenGotoFail ["https://ok.example", "x"] {} = Except.ok
      { productVar := some okRecord, products := [okRecord, okRecord],
        log := [errLine "x" "net::ERR_CONNECTION_REFUSED"] } :=
  c10_stale_append.2 okThenGotoFail "https://ok.example" "x" okRecord
    "net::ERR_CONNECTION_REFUSED" rfl rfl
